import Mathlib

/-!
Verification development for the SSE client component (`src/app/page.tsx`).

The component is shallowly embedded: the JSON decoding done by the browser's
builtin `JSON.parse` is modelled by an executable parser of the JSON grammar,
the React state (`connected`, `statusText`, `messages`, `attempts`,
`attemptsRef`, `esRef`) is collected into a `State` structure, and every
callback of the source (`onopen`, `onerror`, `onmessage`, the named event
listeners, the backoff `setTimeout`, `cleanup`, `connect`, `sendManual`) is a
state transformer.  An event alphabet `Ev` and a `step` function drive the
machine; `run` folds a list of events.
-/

namespace SseClient

/-- JSON values as produced by `JSON.parse`.  Number literals are kept as
their lexeme so that no floating-point arithmetic is needed. -/
inductive Json where
  | null
  | bool (b : Bool)
  | num (lexeme : String)
  | str (s : String)
  | arr (items : List Json)
  | obj (fields : List (String × Json))
deriving Repr

/-- JSON insignificant whitespace. -/
def isWs (c : Char) : Bool :=
  c = ' ' || c = '\t' || c = '\n' || c = '\r'

/-- Skip leading JSON whitespace. -/
def skipWs : List Char → List Char
  | [] => []
  | c :: cs => if isWs c then skipWs cs else c :: cs

/-- Longest prefix of decimal digits. -/
def takeDigits : List Char → (List Char × List Char)
  | [] => ([], [])
  | c :: cs =>
    if c.isDigit then
      let p := takeDigits cs
      (c :: p.1, p.2)
    else ([], c :: cs)

/-- The integer part of a JSON number: `0` or a nonzero digit followed by
digits (leading zeros are rejected, as `JSON.parse` does). -/
def lexInt : List Char → Option (List Char × List Char)
  | [] => none
  | c :: cs =>
    if c = '0' then some ([c], cs)
    else if c.isDigit then
      let p := takeDigits cs
      some (c :: p.1, p.2)
    else none

/-- Optional fraction part `.digits`. -/
def lexFrac : List Char → Option (List Char × List Char)
  | '.' :: cs =>
    let p := takeDigits cs
    if p.1 = [] then none else some ('.' :: p.1, p.2)
  | cs => some ([], cs)

/-- Optional exponent part `e[+-]digits`. -/
def lexExp : List Char → Option (List Char × List Char)
  | [] => some ([], [])
  | c :: cs =>
    if c = 'e' || c = 'E' then
      match cs with
      | [] => none
      | s :: cs2 =>
        if s = '+' || s = '-' then
          let p := takeDigits cs2
          if p.1 = [] then none else some (c :: s :: p.1, p.2)
        else
          let p := takeDigits cs
          if p.1 = [] then none else some (c :: p.1, p.2)
    else some ([], c :: cs)

/-- Lex a JSON number literal, returning its lexeme. -/
def lexNumber (cs : List Char) : Option (String × List Char) :=
  let sp : List Char × List Char :=
    match cs with
    | '-' :: rest => (['-'], rest)
    | _ => ([], cs)
  match lexInt sp.2 with
  | none => none
  | some (ip, cs2) =>
    match lexFrac cs2 with
    | none => none
    | some (fp, cs3) =>
      match lexExp cs3 with
      | none => none
      | some (ep, cs4) => some (String.mk (sp.1 ++ ip ++ fp ++ ep), cs4)

/-- Value of one hexadecimal digit. -/
def hexVal (c : Char) : Option Nat :=
  if '0' ≤ c ∧ c ≤ '9' then some (c.toNat - 48)
  else if 'a' ≤ c ∧ c ≤ 'f' then some (c.toNat - 87)
  else if 'A' ≤ c ∧ c ≤ 'F' then some (c.toNat - 55)
  else none

/-- Lex the body of a JSON string literal (after the opening quote),
handling the escape sequences of the JSON grammar. -/
def lexStringBody (fuel : Nat) (acc : List Char) (cs : List Char) :
    Option (String × List Char) :=
  match fuel with
  | 0 => none
  | fuel + 1 =>
    match cs with
    | [] => none
    | '"' :: rest => some (String.mk acc.reverse, rest)
    | '\\' :: e :: rest =>
      match e with
      | '"' => lexStringBody fuel ('"' :: acc) rest
      | '\\' => lexStringBody fuel ('\\' :: acc) rest
      | '/' => lexStringBody fuel ('/' :: acc) rest
      | 'b' => lexStringBody fuel ('\x08' :: acc) rest
      | 'f' => lexStringBody fuel ('\x0c' :: acc) rest
      | 'n' => lexStringBody fuel ('\n' :: acc) rest
      | 'r' => lexStringBody fuel ('\x0d' :: acc) rest
      | 't' => lexStringBody fuel ('\t' :: acc) rest
      | 'u' =>
        match rest with
        | h1 :: h2 :: h3 :: h4 :: rest2 =>
          match hexVal h1, hexVal h2, hexVal h3, hexVal h4 with
          | some a, some b, some c, some d =>
            lexStringBody fuel
              (Char.ofNat (((a * 16 + b) * 16 + c) * 16 + d) :: acc) rest2
          | _, _, _, _ => none
        | _ => none
      | _ => none
    | c :: rest =>
      if c.toNat < 32 then none else lexStringBody fuel (c :: acc) rest

mutual

/-- Parse one JSON value (fuelled recursive descent). -/
def parseVal (fuel : Nat) (cs : List Char) : Option (Json × List Char) :=
  match fuel with
  | 0 => none
  | fuel + 1 =>
    match skipWs cs with
    | [] => none
    | c :: rest =>
      if c = '"' then
        match lexStringBody (rest.length + 1) [] rest with
        | some (s, rest2) => some (Json.str s, rest2)
        | none => none
      else if c = '\x7b' then parseObjStart fuel rest
      else if c = '[' then parseArrStart fuel rest
      else if c = 't' then
        match rest with
        | 'r' :: 'u' :: 'e' :: rest2 => some (Json.bool true, rest2)
        | _ => none
      else if c = 'f' then
        match rest with
        | 'a' :: 'l' :: 's' :: 'e' :: rest2 => some (Json.bool false, rest2)
        | _ => none
      else if c = 'n' then
        match rest with
        | 'u' :: 'l' :: 'l' :: rest2 => some (Json.null, rest2)
        | _ => none
      else
        match lexNumber (c :: rest) with
        | some (lit, rest2) => some (Json.num lit, rest2)
        | none => none

/-- Parse the inside of an object, just after the opening brace. -/
def parseObjStart (fuel : Nat) (cs : List Char) : Option (Json × List Char) :=
  match fuel with
  | 0 => none
  | fuel + 1 =>
    match skipWs cs with
    | '\x7d' :: rest => some (Json.obj [], rest)
    | rest => parseMembers fuel rest []

/-- Parse one or more `"key": value` members separated by commas. -/
def parseMembers (fuel : Nat) (cs : List Char) (acc : List (String × Json)) :
    Option (Json × List Char) :=
  match fuel with
  | 0 => none
  | fuel + 1 =>
    match skipWs cs with
    | '"' :: rest =>
      match lexStringBody (rest.length + 1) [] rest with
      | none => none
      | some (k, rest2) =>
        match skipWs rest2 with
        | ':' :: rest3 =>
          match parseVal fuel rest3 with
          | none => none
          | some (v, rest4) =>
            match skipWs rest4 with
            | ',' :: rest5 => parseMembers fuel rest5 (acc ++ [(k, v)])
            | '\x7d' :: rest5 => some (Json.obj (acc ++ [(k, v)]), rest5)
            | _ => none
        | _ => none
    | _ => none

/-- Parse the inside of an array, just after the opening bracket. -/
def parseArrStart (fuel : Nat) (cs : List Char) : Option (Json × List Char) :=
  match fuel with
  | 0 => none
  | fuel + 1 =>
    match skipWs cs with
    | ']' :: rest => some (Json.arr [], rest)
    | rest => parseItems fuel rest []

/-- Parse one or more array items separated by commas. -/
def parseItems (fuel : Nat) (cs : List Char) (acc : List Json) :
    Option (Json × List Char) :=
  match fuel with
  | 0 => none
  | fuel + 1 =>
    match parseVal fuel cs with
    | none => none
    | some (v, rest) =>
      match skipWs rest with
      | ',' :: rest2 => parseItems fuel rest2 (acc ++ [v])
      | ']' :: rest2 => some (Json.arr (acc ++ [v]), rest2)
      | _ => none

end

/-- Model of the builtin `JSON.parse`: `none` models a thrown `SyntaxError`. -/
def jsonParse (s : String) : Option Json :=
  let cs := s.toList
  match parseVal (cs.length + 1) cs with
  | some (v, rest) => if skipWs rest = [] then some v else none
  | none => none

/-- Model of `String(err)` for the `SyntaxError` thrown by `JSON.parse` on a
given source text: the parse-failure description shown to the user. -/
def parseFailureDesc (src : String) : String :=
  "SyntaxError: " ++ src ++ " is not valid JSON"

example : jsonParse "\x7b\"a\":1\x7d" = some (Json.obj [("a", Json.num "1")]) := rfl
example : jsonParse "not json" = none := rfl
example : jsonParse "\x7b \"msg\": \"hello from client\" \x7d"
    = some (Json.obj [("msg", Json.str "hello from client")]) := rfl
example : jsonParse "\x7b\x7d" = some (Json.obj []) := rfl
example : jsonParse "[1, true, null]"
    = some (Json.arr [Json.num "1", Json.bool true, Json.null]) := rfl

/-- One entry of the `messages` list: the source's
`\x7b id?, event?, data, raw? \x7d` record shape. -/
structure Msg where
  id : Option String := none
  event : Option String := none
  data : Json
  raw : Option String := none
deriving Repr

/-- `pushMessage` of the source:
`setMessages((m) => [msg, ...m].slice(0, 200))` — prepend, keep recent 200. -/
def pushMessage (msg : Msg) (m : List Msg) : List Msg :=
  (msg :: m).take 200

/-- A discrete server-sent event frame as delivered by the `EventSource`
transport: optional last-event-id, the event name (already defaulted to
`"message"` by the transport when the server omits one), raw payload text. -/
structure EventFrame where
  lastEventId : Option String := none
  eventName : String
  rawPayload : String
deriving Repr, DecidableEq

/-- Best-effort payload decoding used by the source's listeners:
`let data = e.data; try \x7b data = JSON.parse(e.data) \x7d catch \x7b\x7d`. -/
def decodeData (raw : String) : Json :=
  (jsonParse raw).getD (Json.str raw)

/-- Frame dispatch as wired by `connect()`: the `onmessage` handler plus the
three `addEventListener` handlers for `"tick"`, `"heartbeat"` and `"update"`.
A frame with any other event name has no registered listener and produces no
record.  Note the `"heartbeat"` listener pushes `e.data` without decoding and
without `id`/`raw` fields. -/
def dispatchFrame (f : EventFrame) : Option Msg :=
  if f.eventName = "message" then
    some { id := f.lastEventId, event := some "message",
           data := decodeData f.rawPayload, raw := some f.rawPayload }
  else if f.eventName = "tick" then
    some { event := some "tick", data := decodeData f.rawPayload,
           raw := some f.rawPayload }
  else if f.eventName = "heartbeat" then
    some { event := some "heartbeat", data := Json.str f.rawPayload }
  else if f.eventName = "update" then
    some { event := some "update", data := decodeData f.rawPayload,
           raw := some f.rawPayload, id := f.lastEventId }
  else none

/-- The source's hardcoded `fullUrl` constant. -/
def fullUrl : String := "http://localhost:3001"

/-- The source's `buildUrl`: resolve the configured path against the origin
and attach `t` (when a token is configured) and a random `clientId`
(`Math.floor(Math.random() * 1000000)`, modelled by `rand % 1000000`).
This function exists in the source but its call in `connect()` is commented
out. -/
def buildUrl (origin path token : String) (rand : Nat) : String :=
  if token = "" then
    origin ++ path ++ "?clientId=" ++ toString (rand % 1000000)
  else
    origin ++ path ++ "?t=" ++ token ++ "&clientId=" ++ toString (rand % 1000000)

/-- The URL actually passed to `new EventSource` by `connect()`:
the template literal `${fullUrl}/sse` with no query parameters. -/
def connectUrl : String := fullUrl ++ "/sse"

/-- The backoff computed inside `es.onerror` after `attemptsRef.current` was
incremented to `n`: `Math.min(30000, 1000 * Math.pow(2, Math.min(6, n)))`. -/
def backoff (n : Nat) : Nat :=
  min 30000 (1000 * 2 ^ (min 6 n))

/-- Outcome of the awaited `fetch` in `sendManual`: either the promise
rejects (network error) or a response with a status code and body arrives. -/
inductive FetchOutcome where
  | networkError (desc : String)
  | response (status : Nat) (body : String)
deriving Repr, DecidableEq

/-- The source's `sendManual`, as a function of the user-supplied payload and
the fetch outcome.  Returns whether a network request was issued together
with the record pushed: a `JSON.parse` failure on the payload is caught
before any `fetch`; otherwise the response body is parsed by `res.json()`
with no check of the status code, and only a rejection (network error or
body-parse failure) reaches the `catch` branch. -/
def sendManual (payload : String) (o : FetchOutcome) : Bool × Msg :=
  match jsonParse payload with
  | none =>
    (false, { event := some "manual-send-error",
              data := Json.str (parseFailureDesc payload) })
  | some _ =>
    match o with
    | FetchOutcome.networkError desc =>
      (true, { event := some "manual-send-error", data := Json.str desc })
    | FetchOutcome.response _ body =>
      match jsonParse body with
      | some j => (true, { event := some "manual-send-result", data := j })
      | none =>
        (true, { event := some "manual-send-error",
                 data := Json.str (parseFailureDesc body) })

/-- `EventSource.readyState` values. -/
inductive ReadyState where
  | CONNECTING
  | OPEN
  | CLOSED
deriving Repr, DecidableEq

/-- A live `EventSource` handle: a creation serial number (to distinguish
superseding handles), its `readyState`, and the URL it was opened at. -/
structure Handle where
  hid : Nat
  readyState : ReadyState
  url : String
deriving Repr, DecidableEq

/-- The component's observable state: the React state hooks (`connected`,
`statusText`, `messages`, `attempts`), the refs (`attemptsRef`, `esRef`),
plus the ambient clock `now` and the deadlines of pending `setTimeout`
callbacks scheduled by `es.onerror`. -/
structure State where
  connected : Bool
  statusText : String
  messages : List Msg
  attempts : Nat
  attemptsRef : Nat
  esRef : Option Handle
  nextId : Nat
  now : Nat
  timers : List Nat
deriving Repr

/-- The source's `cleanup()`: close and drop the current handle (idempotent),
clear the connected flag, set status `"closed"`.  The pending timers list is
untouched — the source never stores or clears its `setTimeout` handles. -/
def cleanup (s : State) : State :=
  { s with esRef := none, connected := false, statusText := "closed" }

/-- The source's `connect()` (non-throwing path): `cleanup()` first, status
`"connecting..."`, then a fresh `EventSource` at `${fullUrl}/sse` becomes the
current handle. -/
def connect (s : State) : State :=
  let s1 := cleanup s
  let s2 := { s1 with statusText := "connecting..." }
  { s2 with
    esRef := some { hid := s2.nextId, readyState := ReadyState.CONNECTING,
                    url := connectUrl },
    nextId := s2.nextId + 1 }

/-- `es.onopen`: reset both attempt counters, set connected/`"open"`, push
the connection meta record.  A stray open with no current handle is a no-op. -/
def onOpen (s : State) : State :=
  match s.esRef with
  | none => s
  | some h =>
    { s with
      esRef := some { h with readyState := ReadyState.OPEN },
      attemptsRef := 0, attempts := 0, connected := true, statusText := "open",
      messages := pushMessage
        { event := some "__meta", data := Json.str ("connected to " ++ fullUrl) }
        s.messages }

/-- `es.onerror`: clear the connected flag, increment the attempt counters,
push the error meta record; when `reconnectOnError` is set, compute the
capped exponential backoff, display the retry status and schedule a
`setTimeout` at `now + backoff`.  The transport reports the handle's ready
state after the error (`CONNECTING` when the browser retries itself,
`CLOSED` when the stream ended permanently). -/
def onError (reconnectOnError : Bool) (rs : ReadyState) (s : State) : State :=
  match s.esRef with
  | none => s
  | some h =>
    let a := s.attemptsRef + 1
    let s1 :=
      { s with
        esRef := some { h with readyState := rs },
        connected := false, statusText := "error",
        attemptsRef := a, attempts := a,
        messages := pushMessage
          { event := some "__meta",
            data := Json.str ("error (attempt " ++ toString a ++ ")") }
          s.messages }
    if reconnectOnError then
      let b := backoff a
      { s1 with
        statusText := "retrying in " ++ toString ((b + 500) / 1000) ++ "s",
        timers := s1.timers ++ [s1.now + b] }
    else s1

/-- A scheduled `setTimeout` callback firing at deadline `d` (only possible
once `d` has been reached and the timer is still pending): the source's
callback re-creates the connection iff
`!esRef.current || esRef.current.readyState === EventSource.CLOSED`. -/
def fireTimer (s : State) (d : Nat) : State :=
  if d ∈ s.timers ∧ d ≤ s.now then
    let s1 := { s with timers := s.timers.erase d }
    match s1.esRef with
    | none => connect s1
    | some h => if h.readyState = ReadyState.CLOSED then connect s1 else s1
  else s

/-- Delivery of an event frame: the listeners registered by `connect()` fire
only while the current handle is open; the matching listener converts the
frame to a record and pushes it, and a frame with no listener is dropped. -/
def onFrame (s : State) (f : EventFrame) : State :=
  match s.esRef with
  | some h =>
    if h.readyState = ReadyState.OPEN then
      match dispatchFrame f with
      | some msg => { s with messages := pushMessage msg s.messages }
      | none => s
    else s
  | none => s

/-- Completion of `sendManual`: the only state touched is the message list. -/
def manualStep (s : State) (payload : String) (o : FetchOutcome) : State :=
  { s with messages := pushMessage (sendManual payload o).2 s.messages }

/-- The event alphabet driving the component. -/
inductive Ev where
  | connectReq
  | disconnectReq
  | openEvt
  | errorEvt (rs : ReadyState)
  | frameEvt (f : EventFrame)
  | elapse (d : Nat)
  | fire (d : Nat)
  | manualSend (payload : String) (o : FetchOutcome)

/-- One step of the component under configuration `r = reconnectOnError`. -/
def step (r : Bool) (s : State) : Ev → State
  | Ev.connectReq => connect s
  | Ev.disconnectReq => cleanup s
  | Ev.openEvt => onOpen s
  | Ev.errorEvt rs => onError r rs s
  | Ev.frameEvt f => onFrame s f
  | Ev.elapse d => { s with now := s.now + d }
  | Ev.fire d => fireTimer s d
  | Ev.manualSend p o => manualStep s p o

/-- Run a list of events from a state. -/
def run (r : Bool) (s : State) : List Ev → State
  | [] => s
  | e :: evs => run r (step r s e) evs

/-- The initial state of the component (before the auto-connect effect). -/
def init : State :=
  { connected := false, statusText := "idle", messages := [], attempts := 0,
    attemptsRef := 0, esRef := none, nextId := 0, now := 0, timers := [] }

/-- Events that are transport open/error reports. -/
def isTransportEv : Ev → Bool
  | Ev.openEvt => true
  | Ev.errorEvt _ => true
  | _ => false

/-- Events that are transport error reports. -/
def isErrEv : Ev → Bool
  | Ev.errorEvt _ => true
  | _ => false

/-- Number of error events in a list. -/
def errCount (evs : List Ev) : Nat :=
  (evs.filter fun e => isErrEv e).length

/-- The suffix of an event list strictly after its last open event
(`none` when no open event occurs). -/
def afterLastOpen : List Ev → Option (List Ev)
  | [] => none
  | e :: rest =>
    match afterLastOpen rest with
    | some suf => some suf
    | none =>
      match e with
      | Ev.openEvt => some rest
      | _ => none

/-- A distinct record derived from a number, used to exercise the buffer. -/
def natRecord (i : Nat) : Msg :=
  { event := some "message", data := Json.str (toString i),
    raw := some (toString i) }

/-- Helper: the attempts counter after any sequence of transport open/error
events equals the number of error events since the last open event (or the
starting value plus all error events when no open occurs). -/
theorem run_attempts_transport (r : Bool) (evs : List Ev) :
    ∀ s : State, s.esRef.isSome → (∀ e ∈ evs, isTransportEv e) →
      (run r s evs).attemptsRef =
        (match afterLastOpen evs with
         | some suf => errCount suf
         | none => s.attemptsRef + errCount evs) := by
  induction evs with
  | nil => intro s _ _; simp [run, afterLastOpen, errCount]
  | cons e rest ih =>
    intro s hs hall
    have hrest : ∀ x ∈ rest, isTransportEv x :=
      fun x hx => hall x (List.mem_cons_of_mem _ hx)
    have he : isTransportEv e := hall e (List.mem_cons_self _ _)
    obtain ⟨h, hes⟩ := Option.isSome_iff_exists.mp hs
    cases e with
    | openEvt =>
      have h1 : (step r s Ev.openEvt).esRef.isSome := by
        simp [step, onOpen, hes]
      have h2 : (step r s Ev.openEvt).attemptsRef = 0 := by
        simp [step, onOpen, hes]
      rw [run, ih _ h1 hrest, h2]
      cases hao : afterLastOpen rest with
      | some suf => simp [afterLastOpen, hao]
      | none => simp [afterLastOpen, hao]
    | errorEvt rs =>
      have h1 : (step r s (Ev.errorEvt rs)).esRef.isSome := by
        simp only [step, onError, hes]
        split <;> simp
      have h2 : (step r s (Ev.errorEvt rs)).attemptsRef = s.attemptsRef + 1 := by
        simp only [step, onError, hes]
        split <;> simp
      rw [run, ih _ h1 hrest, h2]
      cases hao : afterLastOpen rest with
      | some suf => simp [afterLastOpen, hao]
      | none =>
        have hec : errCount (Ev.errorEvt rs :: rest) = errCount rest + 1 := rfl
        simp only [afterLastOpen, hao]
        rw [hec]
        ac_rfl
    | connectReq => simp [isTransportEv] at he
    | disconnectReq => simp [isTransportEv] at he
    | frameEvt f => simp [isTransportEv] at he
    | elapse d => simp [isTransportEv] at he
    | fire d => simp [isTransportEv] at he
    | manualSend p o => simp [isTransportEv] at he

/-- Helper: folding insertions into an empty buffer yields the reverse of
the inserted list truncated to the 200 newest. -/
theorem foldl_pushMessage_eq (l : List Msg) :
    l.foldl (fun m x => pushMessage x m) [] = l.reverse.take 200 := by
  have key : ∀ (l : List Msg) (x : Msg),
      pushMessage x (l.reverse.take 200) = (l ++ [x]).reverse.take 200 := by
    intro l x
    rw [List.reverse_append]
    simp only [List.reverse_cons, List.reverse_nil, List.nil_append,
      List.singleton_append]
    rw [pushMessage, show (200 : Nat) = 199 + 1 from rfl,
      List.take_succ_cons, List.take_succ_cons, List.take_take]
    norm_num
  induction l using List.reverseRecOn with
  | nil => rfl
  | append_singleton l x ih =>
    rw [List.foldl_append, List.foldl_cons, List.foldl_nil, ih, key]

/-!  Theorems settling the claims. -/

/-- C1: the code violates the claim.  In the execution connect, transport
error (which schedules a 2000 ms backoff timer, the component now backing
off), explicit disconnect (`cleanup`, which nulls the handle but leaves the
timer pending), then letting the original deadline elapse, the stale timer's
guard `!esRef.current || readyState === CLOSED` holds (the ref is null after
cleanup), so `connect()` runs: the component transitions into Connecting and
a fresh handle is created, even though a disconnect happened during the
backoff. -/
theorem C1_stale_timer_reconnects_after_disconnect :
    (run true init [Ev.connectReq, Ev.errorEvt ReadyState.CLOSED,
        Ev.disconnectReq]).esRef = none ∧
    (run true init [Ev.connectReq, Ev.errorEvt ReadyState.CLOSED,
        Ev.disconnectReq]).timers = [2000] ∧
    (run true init [Ev.connectReq, Ev.errorEvt ReadyState.CLOSED,
        Ev.disconnectReq, Ev.elapse 2000, Ev.fire 2000]).statusText
      = "connecting..." ∧
    (run true init [Ev.connectReq, Ev.errorEvt ReadyState.CLOSED,
        Ev.disconnectReq, Ev.elapse 2000, Ev.fire 2000]).esRef
      = some { hid := 1, readyState := ReadyState.CONNECTING, url := connectUrl } :=
  ⟨rfl, rfl, rfl, rfl⟩

/-- C2 counterexample: the first scheduled backoff delay is 2000 ms, not the
1000 ms the claim's enumerated sequence asserts (the code increments
`attemptsRef` to 1 before computing `1000 * 2 ^ min(6, 1)`). -/
theorem C2_first_backoff_is_2000_not_1000 :
    (run true init [Ev.connectReq, Ev.errorEvt ReadyState.CLOSED]).timers
      = [0 + backoff 1] ∧
    backoff 1 = 2000 ∧ backoff 1 ≠ 1000 :=
  ⟨rfl, rfl, by decide⟩

/-- C2 (amended): the delay scheduled before the n-th reconnect equals
`min(30000, 1000 * 2 ^ min(n, 6))` ms, which for n = 1..10 yields
2000, 4000, 8000, 16000, 30000, 30000, 30000, 30000, 30000, 30000. -/
theorem C2_backoff_schedule (s : State) (h : Handle) (rs : ReadyState)
    (hes : s.esRef = some h) :
    (step true s (Ev.errorEvt rs)).timers
      = s.timers ++ [s.now + min 30000 (1000 * 2 ^ (min 6 (s.attemptsRef + 1)))] ∧
    (List.range 10).map (fun k => backoff (k + 1))
      = [2000, 4000, 8000, 16000, 30000, 30000, 30000, 30000, 30000, 30000] := by
  constructor
  · simp [step, onError, hes, backoff]
  · decide

/-- Witness for `C2_backoff_schedule` at the state right after `connect`. -/
theorem C2_backoff_schedule_witness :
    (step true (connect init) (Ev.errorEvt ReadyState.CLOSED)).timers
      = (connect init).timers
        ++ [(connect init).now
            + min 30000 (1000 * 2 ^ (min 6 ((connect init).attemptsRef + 1)))] ∧
    (List.range 10).map (fun k => backoff (k + 1))
      = [2000, 4000, 8000, 16000, 30000, 30000, 30000, 30000, 30000, 30000] :=
  C2_backoff_schedule (connect init)
    { hid := 0, readyState := ReadyState.CONNECTING, url := connectUrl }
    ReadyState.CLOSED rfl

/-- C5 counterexample: while a stream handle exists and is open, a frame
whose event name is not one of the four registered listeners
(`message`, `tick`, `heartbeat`, `update`) has no listener, produces no
record, and the buffer is left unchanged — contradicting the claim that
every frame is pushed whatever its name. -/
theorem C5_unregistered_event_name_dropped :
    dispatchFrame { eventName := "custom-event", rawPayload := "hello" } = none ∧
    (run true init [Ev.connectReq, Ev.openEvt]).esRef
      = some { hid := 0, readyState := ReadyState.OPEN, url := connectUrl } ∧
    (run true init [Ev.connectReq, Ev.openEvt,
        Ev.frameEvt { eventName := "custom-event", rawPayload := "hello" }]).messages
      = (run true init [Ev.connectReq, Ev.openEvt]).messages :=
  ⟨rfl, rfl, rfl⟩

/-- C5 (amended): while the stream handle is open, exactly the frames whose
event name is `"message"` (the default for unlabelled frames), `"tick"`,
`"heartbeat"` or `"update"` are converted to records and pushed into the
buffer; frames with any other event name are dropped. -/
theorem C5_registered_listeners (r : Bool) (s : State) (h : Handle)
    (f : EventFrame) (hes : s.esRef = some h)
    (hopen : h.readyState = ReadyState.OPEN) :
    ((f.eventName = "message" ∨ f.eventName = "tick" ∨
        f.eventName = "heartbeat" ∨ f.eventName = "update") →
      ∃ msg, dispatchFrame f = some msg ∧ msg.event = some f.eventName ∧
        (step r s (Ev.frameEvt f)).messages = pushMessage msg s.messages) ∧
    (¬ (f.eventName = "message" ∨ f.eventName = "tick" ∨
        f.eventName = "heartbeat" ∨ f.eventName = "update") →
      dispatchFrame f = none ∧
        (step r s (Ev.frameEvt f)).messages = s.messages) := by
  have hstep : ∀ msg, dispatchFrame f = some msg →
      (step r s (Ev.frameEvt f)).messages = pushMessage msg s.messages := by
    intro msg hd
    simp [step, onFrame, hes, hopen, hd]
  constructor
  · rintro (hn | hn | hn | hn)
    · exact ⟨{ id := f.lastEventId, event := some "message",
               data := decodeData f.rawPayload, raw := some f.rawPayload },
        by simp [dispatchFrame, hn], by simp [hn],
        hstep _ (by simp [dispatchFrame, hn])⟩
    · exact ⟨{ event := some "tick", data := decodeData f.rawPayload,
               raw := some f.rawPayload },
        by simp [dispatchFrame, hn], by simp [hn],
        hstep _ (by simp [dispatchFrame, hn])⟩
    · exact ⟨{ event := some "heartbeat", data := Json.str f.rawPayload },
        by simp [dispatchFrame, hn], by simp [hn],
        hstep _ (by simp [dispatchFrame, hn])⟩
    · exact ⟨{ id := f.lastEventId, event := some "update",
               data := decodeData f.rawPayload, raw := some f.rawPayload },
        by simp [dispatchFrame, hn], by simp [hn],
        hstep _ (by simp [dispatchFrame, hn])⟩
  · intro hn
    push_neg at hn
    obtain ⟨h1, h2, h3, h4⟩ := hn
    constructor
    · simp [dispatchFrame, h1, h2, h3, h4]
    · simp [step, onFrame, hes, hopen, dispatchFrame, h1, h2, h3, h4]

/-- Witness for `C5_registered_listeners` on a `tick` frame in the open
state reached by connect then open. -/
theorem C5_registered_listeners_witness :
    (((⟨none, "tick", "41"⟩ : EventFrame).eventName = "message" ∨
        (⟨none, "tick", "41"⟩ : EventFrame).eventName = "tick" ∨
        (⟨none, "tick", "41"⟩ : EventFrame).eventName = "heartbeat" ∨
        (⟨none, "tick", "41"⟩ : EventFrame).eventName = "update") →
      ∃ msg, dispatchFrame ⟨none, "tick", "41"⟩ = some msg ∧
        msg.event = some (⟨none, "tick", "41"⟩ : EventFrame).eventName ∧
        (step true (run true init [Ev.connectReq, Ev.openEvt])
            (Ev.frameEvt ⟨none, "tick", "41"⟩)).messages
          = pushMessage msg (run true init [Ev.connectReq, Ev.openEvt]).messages) ∧
    (¬ ((⟨none, "tick", "41"⟩ : EventFrame).eventName = "message" ∨
        (⟨none, "tick", "41"⟩ : EventFrame).eventName = "tick" ∨
        (⟨none, "tick", "41"⟩ : EventFrame).eventName = "heartbeat" ∨
        (⟨none, "tick", "41"⟩ : EventFrame).eventName = "update") →
      dispatchFrame ⟨none, "tick", "41"⟩ = none ∧
        (step true (run true init [Ev.connectReq, Ev.openEvt])
            (Ev.frameEvt ⟨none, "tick", "41"⟩)).messages
          = (run true init [Ev.connectReq, Ev.openEvt]).messages) :=
  C5_registered_listeners true (run true init [Ev.connectReq, Ev.openEvt])
    { hid := 0, readyState := ReadyState.OPEN, url := connectUrl }
    ⟨none, "tick", "41"⟩ rfl rfl

/-- C6: the code violates the claim.  `connect()` ignores `buildUrl` (its
call is commented out in the source) and opens every stream at the hardcoded
`http://localhost:3001/sse` with no query string at all — no `t` token
parameter and no per-connection `clientId` — while `buildUrl`, which the
component's own header comment describes, would have produced the
tokenised URL. -/
theorem C6_stream_url_is_hardcoded :
    (∀ s : State, (connect s).esRef
      = some { hid := s.nextId, readyState := ReadyState.CONNECTING,
               url := connectUrl }) ∧
    connectUrl = "http://localhost:3001/sse" ∧
    connectUrl.toList.contains '?' = false ∧
    buildUrl "http://localhost:3001" "/sse" "JWT" 42
      = "http://localhost:3001/sse?t=JWT&clientId=42" :=
  ⟨fun _ => rfl, rfl, by decide, rfl⟩

/-- C8 counterexample: a response with non-2xx status 500 whose body is
valid JSON is reported as `manual-send-result` (the parsed body), not as
`manual-send-error` — the code never inspects `res.status`/`res.ok`. -/
theorem C8_non2xx_with_json_body_reports_result :
    (sendManual "\x7b\x7d" (FetchOutcome.response 500 "\x7b\"err\":\"boom\"\x7d")).2.event
      = some "manual-send-result" ∧
    (some "manual-send-result" : Option String) ≠ some "manual-send-error" ∧
    ¬ (200 ≤ 500 ∧ 500 ≤ 299) :=
  ⟨rfl, by decide, by decide⟩

/-- C8 (amended): for a side-channel send that does issue a request, a
network error is reported as `manual-send-error`; a response whose body
parses as JSON is reported as `manual-send-result` with the parsed body,
regardless of status code; a response whose body fails to parse as JSON is
reported as `manual-send-error`. -/
theorem C8_request_outcome_reports (p : String) (hp : (jsonParse p).isSome) :
    (∀ d, sendManual p (FetchOutcome.networkError d)
      = (true, { event := some "manual-send-error", data := Json.str d })) ∧
    (∀ st body j, jsonParse body = some j →
      sendManual p (FetchOutcome.response st body)
        = (true, { event := some "manual-send-result", data := j })) ∧
    (∀ st body, jsonParse body = none →
      sendManual p (FetchOutcome.response st body)
        = (true, { event := some "manual-send-error",
                   data := Json.str (parseFailureDesc body) })) := by
  obtain ⟨j, hj⟩ := Option.isSome_iff_exists.mp hp
  refine ⟨fun d => ?_, fun st body jb hjb => ?_, fun st body hb => ?_⟩
  · simp [sendManual, hj]
  · simp [sendManual, hj, hjb]
  · simp [sendManual, hj, hb]

/-- Witness for `C8_request_outcome_reports` at the payload `"\x7b\x7d"`. -/
theorem C8_request_outcome_reports_witness :
    (∀ d, sendManual "\x7b\x7d" (FetchOutcome.networkError d)
      = (true, { event := some "manual-send-error", data := Json.str d })) ∧
    (∀ st body j, jsonParse body = some j →
      sendManual "\x7b\x7d" (FetchOutcome.response st body)
        = (true, { event := some "manual-send-result", data := j })) ∧
    (∀ st body, jsonParse body = none →
      sendManual "\x7b\x7d" (FetchOutcome.response st body)
        = (true, { event := some "manual-send-error",
                   data := Json.str (parseFailureDesc body) })) :=
  C8_request_outcome_reports "\x7b\x7d" (by decide)

/-- C9 counterexample: the payload of a `heartbeat` frame parses as JSON,
yet the record's data is the raw payload string, not the structured value —
the heartbeat listener pushes `e.data` without attempting `JSON.parse`, so
decoding is not uniform across event names. -/
theorem C9_heartbeat_payload_not_decoded :
    jsonParse "\x7b\"a\":1\x7d" = some (Json.obj [("a", Json.num "1")]) ∧
    dispatchFrame { eventName := "heartbeat", rawPayload := "\x7b\"a\":1\x7d" }
      = some { event := some "heartbeat", data := Json.str "\x7b\"a\":1\x7d" } ∧
    Json.str "\x7b\"a\":1\x7d" ≠ Json.obj [("a", Json.num "1")] :=
  ⟨rfl, rfl, fun h => Json.noConfusion h⟩

/-- C9 (amended): payload decoding is best-effort and total for `message`,
`tick` and `update` frames (structured value when the payload parses as
JSON, the raw string unchanged otherwise, never an error), while `heartbeat`
records always carry the raw payload string undecoded. -/
theorem C9_best_effort_decode (f : EventFrame)
    (hname : f.eventName = "message" ∨ f.eventName = "tick" ∨
             f.eventName = "update") :
    (∃ msg, dispatchFrame f = some msg ∧ msg.data = decodeData f.rawPayload) ∧
    (∀ g : EventFrame, g.eventName = "heartbeat" →
      dispatchFrame g
        = some { event := some "heartbeat", data := Json.str g.rawPayload }) ∧
    decodeData "\x7b\"a\":1\x7d" = Json.obj [("a", Json.num "1")] ∧
    decodeData "not json" = Json.str "not json" := by
  refine ⟨?_, fun g hg => ?_, rfl, rfl⟩
  · rcases hname with hn | hn | hn
    · exact ⟨{ id := f.lastEventId, event := some "message",
               data := decodeData f.rawPayload, raw := some f.rawPayload },
        by simp [dispatchFrame, hn], rfl⟩
    · exact ⟨{ event := some "tick", data := decodeData f.rawPayload,
               raw := some f.rawPayload },
        by simp [dispatchFrame, hn], rfl⟩
    · exact ⟨{ id := f.lastEventId, event := some "update",
               data := decodeData f.rawPayload, raw := some f.rawPayload },
        by simp [dispatchFrame, hn], rfl⟩
  · simp [dispatchFrame, hg]

/-- C3: for every sequence of transport open/error events delivered while a
handle exists, the reconnect-attempt counter equals the number of Erroring
transitions since the most recent Open transition (or its starting value
plus all error events when no open occurs); entering Open resets it to 0 and
each Erroring transition increments it by exactly 1. -/
theorem C3_reconnect_counter (r : Bool) :
    (∀ (s : State) (h : Handle), s.esRef = some h →
      (onOpen s).attemptsRef = 0) ∧
    (∀ (s : State) (h : Handle) (rs : ReadyState), s.esRef = some h →
      (onError r rs s).attemptsRef = s.attemptsRef + 1) ∧
    (∀ (s : State) (evs : List Ev), s.esRef.isSome →
      (∀ e ∈ evs, isTransportEv e) →
      (run r s evs).attemptsRef =
        (match afterLastOpen evs with
         | some suf => errCount suf
         | none => s.attemptsRef + errCount evs)) := by
  refine ⟨fun s h hes => by simp [onOpen, hes],
          fun s h rs hes => ?_,
          fun s evs hs hall => run_attempts_transport r evs s hs hall⟩
  simp only [onError, hes]
  split <;> simp

/-- Witness for `C3_reconnect_counter`: two errors, an open, then one error
starting from a freshly connected state. -/
theorem C3_reconnect_counter_witness :
    (run true (connect init)
        [Ev.errorEvt ReadyState.CLOSED, Ev.errorEvt ReadyState.CLOSED,
         Ev.openEvt, Ev.errorEvt ReadyState.CLOSED]).attemptsRef =
      (match afterLastOpen
          [Ev.errorEvt ReadyState.CLOSED, Ev.errorEvt ReadyState.CLOSED,
           Ev.openEvt, Ev.errorEvt ReadyState.CLOSED] with
       | some suf => errCount suf
       | none => (connect init).attemptsRef + errCount
           [Ev.errorEvt ReadyState.CLOSED, Ev.errorEvt ReadyState.CLOSED,
            Ev.openEvt, Ev.errorEvt ReadyState.CLOSED]) :=
  (C3_reconnect_counter true).2.2 (connect init)
    [Ev.errorEvt ReadyState.CLOSED, Ev.errorEvt ReadyState.CLOSED,
     Ev.openEvt, Ev.errorEvt ReadyState.CLOSED]
    rfl (by decide)

set_option maxRecDepth 100000 in
/-- C4: the buffer never exceeds 200 records; each insertion prepends then
truncates, so any sequence of insertions into an empty buffer leaves the
most recently inserted records newest-first, truncated to 200; in
particular, after inserting 250 distinct records the buffer holds exactly
the 200 most recent ones, newest-first. -/
theorem C4_buffer_cap_and_recency :
    (∀ (msg : Msg) (m : List Msg), (pushMessage msg m).length ≤ 200) ∧
    (∀ l : List Msg, l.foldl (fun m x => pushMessage x m) []
      = l.reverse.take 200) ∧
    ((List.range 250).map natRecord).foldl (fun m x => pushMessage x m) []
      = (((List.range 250).drop 50).map natRecord).reverse ∧
    ((((List.range 250).drop 50).map natRecord).reverse).length = 200 := by
  refine ⟨fun msg m => ?_, foldl_pushMessage_eq, ?_, rfl⟩
  · rw [pushMessage]
    exact List.length_take_le 200 (msg :: m)
  · rw [foldl_pushMessage_eq]
    rfl

/-- C7: a side-channel send whose payload is not valid JSON issues no
request, pushes a `manual-send-error` record carrying the parse-failure
description, and leaves the whole connection state (handle, connected flag,
status text, both attempt counters) unchanged. -/
theorem C7_malformed_send_no_request (r : Bool) (s : State) (p : String)
    (o : FetchOutcome) (hp : jsonParse p = none) :
    (sendManual p o).1 = false ∧
    (sendManual p o).2
      = { event := some "manual-send-error",
          data := Json.str (parseFailureDesc p) } ∧
    (step r s (Ev.manualSend p o)).messages
      = pushMessage
          { event := some "manual-send-error",
            data := Json.str (parseFailureDesc p) } s.messages ∧
    (step r s (Ev.manualSend p o)).esRef = s.esRef ∧
    (step r s (Ev.manualSend p o)).connected = s.connected ∧
    (step r s (Ev.manualSend p o)).statusText = s.statusText ∧
    (step r s (Ev.manualSend p o)).attemptsRef = s.attemptsRef ∧
    (step r s (Ev.manualSend p o)).attempts = s.attempts := by
  refine ⟨?_, ?_, ?_, rfl, rfl, rfl, rfl, rfl⟩
  · simp [sendManual, hp]
  · simp [sendManual, hp]
  · simp [step, manualStep, sendManual, hp]

/-- Witness for `C7_malformed_send_no_request` at payload `"not json"`. -/
theorem C7_malformed_send_no_request_witness :
    (sendManual "not json" (FetchOutcome.networkError "refused")).1 = false ∧
    (sendManual "not json" (FetchOutcome.networkError "refused")).2
      = { event := some "manual-send-error",
          data := Json.str (parseFailureDesc "not json") } ∧
    (step true init (Ev.manualSend "not json"
        (FetchOutcome.networkError "refused"))).messages
      = pushMessage
          { event := some "manual-send-error",
            data := Json.str (parseFailureDesc "not json") } init.messages ∧
    (step true init (Ev.manualSend "not json"
        (FetchOutcome.networkError "refused"))).esRef = init.esRef ∧
    (step true init (Ev.manualSend "not json"
        (FetchOutcome.networkError "refused"))).connected = init.connected ∧
    (step true init (Ev.manualSend "not json"
        (FetchOutcome.networkError "refused"))).statusText = init.statusText ∧
    (step true init (Ev.manualSend "not json"
        (FetchOutcome.networkError "refused"))).attemptsRef
      = init.attemptsRef ∧
    (step true init (Ev.manualSend "not json"
        (FetchOutcome.networkError "refused"))).attempts = init.attempts :=
  C7_malformed_send_no_request true init "not json"
    (FetchOutcome.networkError "refused") rfl

/-- C10: no operation of the component removes or mutates existing buffer
records except cap truncation on insertion — every step prepends at most one
record and keeps the previous records (truncated to the cap) unchanged — and
disconnecting and reconnecting leave the buffer exactly as it was. -/
theorem C10_append_only (r : Bool) (s : State) (e : Ev)
    (hlen : s.messages.length ≤ 200) :
    (∃ pushed : List Msg, pushed.length ≤ 1 ∧
        (step r s e).messages
          = pushed ++ s.messages.take (200 - pushed.length)) ∧
    (step r s Ev.disconnectReq).messages = s.messages ∧
    (step r s Ev.connectReq).messages = s.messages := by
  have htake : s.messages.take 200 = s.messages := List.take_of_length_le hlen
  refine ⟨?_, rfl, rfl⟩
  cases e with
  | connectReq => exact ⟨[], Nat.zero_le 1, htake.symm⟩
  | disconnectReq => exact ⟨[], Nat.zero_le 1, htake.symm⟩
  | elapse d => exact ⟨[], Nat.zero_le 1, htake.symm⟩
  | openEvt =>
    cases hes : s.esRef with
    | none =>
      exact ⟨[], Nat.zero_le 1, by simp only [step, onOpen, hes]; exact htake.symm⟩
    | some h =>
      refine ⟨[{ event := some "__meta",
                 data := Json.str ("connected to " ++ fullUrl) }],
              Nat.le_refl 1, ?_⟩
      simp only [step, onOpen, hes]
      rfl
  | errorEvt rs =>
    cases hes : s.esRef with
    | none =>
      exact ⟨[], Nat.zero_le 1, by simp only [step, onError, hes]; exact htake.symm⟩
    | some h =>
      refine ⟨[{ event := some "__meta",
                 data := Json.str
                   ("error (attempt " ++ toString (s.attemptsRef + 1) ++ ")") }],
              Nat.le_refl 1, ?_⟩
      simp only [step, onError, hes]
      split <;> rfl
  | frameEvt f =>
    cases hes : s.esRef with
    | none =>
      exact ⟨[], Nat.zero_le 1, by simp only [step, onFrame, hes]; exact htake.symm⟩
    | some h =>
      by_cases ho : h.readyState = ReadyState.OPEN
      · cases hd : dispatchFrame f with
        | none =>
          exact ⟨[], Nat.zero_le 1, by
            simp only [step, onFrame, hes, ho, if_true, hd]
            exact htake.symm⟩
        | some msg =>
          refine ⟨[msg], Nat.le_refl 1, ?_⟩
          simp only [step, onFrame, hes, ho, if_true, hd]
          rfl
      · exact ⟨[], Nat.zero_le 1, by
          simp only [step, onFrame, hes, if_neg ho]
          exact htake.symm⟩
  | fire d =>
    refine ⟨[], Nat.zero_le 1, ?_⟩
    have hmsg : (fireTimer s d).messages = s.messages := by
      by_cases hc : d ∈ s.timers ∧ d ≤ s.now
      · simp only [fireTimer, if_pos hc]
        cases hs : s.esRef with
        | none => simp [hs, connect, cleanup]
        | some h =>
          simp only [hs]
          split <;> simp [connect, cleanup]
      · simp [fireTimer, hc]
    show (fireTimer s d).messages = _
    rw [hmsg]
    exact htake.symm
  | manualSend p o =>
    refine ⟨[(sendManual p o).2], Nat.le_refl 1, ?_⟩
    simp only [step, manualStep]
    rfl

/-- Witness for `C10_append_only` at the initial state and an open event. -/
theorem C10_append_only_witness :
    (∃ pushed : List Msg, pushed.length ≤ 1 ∧
        (step true init Ev.openEvt).messages
          = pushed ++ init.messages.take (200 - pushed.length)) ∧
    (step true init Ev.disconnectReq).messages = init.messages ∧
    (step true init Ev.connectReq).messages = init.messages :=
  C10_append_only true init Ev.openEvt (by decide)

/-- Witness for `C9_best_effort_decode` on a `tick` frame. -/
theorem C9_best_effort_decode_witness :
    (∃ msg, dispatchFrame ⟨none, "tick", "not json"⟩ = some msg ∧
      msg.data = decodeData (⟨none, "tick", "not json"⟩ : EventFrame).rawPayload) ∧
    (∀ g : EventFrame, g.eventName = "heartbeat" →
      dispatchFrame g
        = some { event := some "heartbeat", data := Json.str g.rawPayload }) ∧
    decodeData "\x7b\"a\":1\x7d" = Json.obj [("a", Json.num "1")] ∧
    decodeData "not json" = Json.str "not json" :=
  C9_best_effort_decode ⟨none, "tick", "not json"⟩ (Or.inr (Or.inl rfl))

end SseClient
